import Mathlib

/-!
Verification of the invoice totals and inventory-valuation engine of the
book billing system (`core/models.py`, `core/forms.py`,
`core/views_purchase.py`).

Monetary amounts (Python `Decimal`) are modelled as exact rationals `ℚ`;
integer quantities as `Int`.  Fallible Python code (exceptions such as
`ValueError` / `ZeroDivisionError`) is modelled with `Except String` or an
`Option String` error component.  Where duplicate class definitions occur
in `models.py`, the binding that is last in the module (the one Python
attaches to the class) is the one embedded.
-/

deriving instance DecidableEq for Except

namespace BookBilling

/-- Embeds `Invoice.InvoiceType` (models.py). -/
inductive InvoiceType where
  | SALES
  | PURCHASE
  | SALES_RETURN
  | PURCHASE_RETURN
deriving DecidableEq, Repr

/-- Embeds `Invoice.InvoiceStatus` (models.py). -/
inductive InvoiceStatus where
  | DRAFT
  | PROFORMA
  | CONFIRMED
  | CANCELLED
  | PAID
  | OVERDUE
deriving DecidableEq, Repr

/-- The `Book` model (models.py): the fields the engine reads or writes,
plus representative fields it must leave unchanged. -/
structure Book where
  id : Nat
  mrp : ℚ
  selling_price : ℚ
  cost_price : ℚ
  quantity_on_hand : Int
  reorder_level : Int
deriving DecidableEq, Repr

/-- The `Invoice` model (models.py): financial fields and identity. -/
structure Invoice where
  invoice_number : String
  invoice_type : InvoiceType
  status : InvoiceStatus
  party : Nat
  subtotal : ℚ
  discount_amount : ℚ
  tax_amount : ℚ
  shipping_charges : ℚ
  total_amount : ℚ
  paid_amount : ℚ
deriving DecidableEq, Repr

/-- The `InvoiceItem` model (models.py).  `book` is the id of the
referenced `Book` row. -/
structure InvoiceItem where
  book : Nat
  quantity : Int
  unit_price : ℚ
  discount_percent : ℚ
  tax_percent : ℚ
  line_total : ℚ
deriving DecidableEq, Repr

/-- Embeds `InvoiceItem.save` (models.py lines 247-252): recomputes `line_total`
from quantity, unit price, discount percent and tax percent, overwriting
whatever `line_total` the caller supplied.  (The subsequent
`super().save()` persists the row and `self.invoice.update_totals()`
recomputes the invoice; those are modelled separately.) -/
def InvoiceItem.save (it : InvoiceItem) : InvoiceItem :=
  let subtotal := (it.quantity : ℚ) * it.unit_price
  let discount := (subtotal * it.discount_percent) / 100
  let tax := ((subtotal - discount) * it.tax_percent) / 100
  { it with line_total := (subtotal - discount) + tax }

/-- Embeds `Invoice.update_totals` (models.py lines 211-215): recomputes
`subtotal` as the sum of the items' `line_total` and `total_amount` from
the invoice-level adjustments, then persists. -/
def Invoice.update_totals (inv : Invoice) (items : List InvoiceItem) : Invoice :=
  let subtotal := (items.map InvoiceItem.line_total).sum
  { inv with
      subtotal := subtotal,
      total_amount := subtotal - inv.discount_amount + inv.tax_amount +
        inv.shipping_charges }

/-- Modelled from the spec: `balance_due` is listed by `core/admin.py` as a
(read-only) attribute of `Invoice`, but its definition is not under `src/`;
the spec defines `balance_due = total_amount - paid_amount`. -/
def Invoice.balance_due (inv : Invoice) : ℚ :=
  inv.total_amount - inv.paid_amount

/-- The cascade in `InvoiceItem.save` (models.py lines 247-253): saving a
line item recomputes its `line_total`, then triggers
`self.invoice.update_totals()` over the invoice's items (the saved item
among them). -/
def InvoiceItem.save_cascade (it : InvoiceItem) (inv : Invoice)
    (others : List InvoiceItem) : InvoiceItem × Invoice :=
  let it2 := it.save
  (it2, inv.update_totals (others ++ [it2]))

/-- C1: for every line item with quantity ≥ 1, unit_price ≥ 0 and percents
in [0,100], `save` recomputes `line_total` as
`quantity*unit_price*(1-discount_percent/100)*(1+tax_percent/100)`,
overwriting any caller-supplied `line_total` value `x`. -/
theorem save_line_total_formula (it : InvoiceItem) (x : ℚ)
    (hq : 1 ≤ it.quantity) (hp : 0 ≤ it.unit_price)
    (hd0 : 0 ≤ it.discount_percent) (hd1 : it.discount_percent ≤ 100)
    (ht0 : 0 ≤ it.tax_percent) (ht1 : it.tax_percent ≤ 100) :
    ({ it with line_total := x } : InvoiceItem).save.line_total =
      (it.quantity : ℚ) * it.unit_price * (1 - it.discount_percent / 100) *
        (1 + it.tax_percent / 100) := by
  simp only [InvoiceItem.save]
  ring

/-- C1 witness: the spec's example line `quantity=3, unit_price=100,
discount_percent=10, tax_percent=5` has `line_total = 283.50` even when the
caller supplied `line_total = 999`. -/
theorem save_line_total_formula_witness :
    ({ book := 1, quantity := 3, unit_price := 100, discount_percent := 10,
       tax_percent := 5, line_total := 999 } : InvoiceItem).save.line_total
      = 283.5 := by
  have h := save_line_total_formula
    { book := 1, quantity := 3, unit_price := 100, discount_percent := 10,
      tax_percent := 5, line_total := 0 } 999
    (by decide) (by norm_num) (by norm_num) (by norm_num) (by norm_num)
    (by norm_num)
  simpa using h.trans (by norm_num)

/-- Looking an `InvoiceItem`'s `book` foreign key up in the book table
(`item.book` in models.py). -/
def find_book : List Book → Nat → Option Book
  | [], _ => none
  | b :: bs, bid => if b.id = bid then some b else find_book bs bid

/-- Embeds `book.save()` on a book row: the row with the same id is replaced. -/
def save_book : List Book → Book → List Book
  | [], _ => []
  | x :: xs, b => (if x.id = b.id then b else x) :: save_book xs b

/-- One iteration of the receipt loop of `Invoice.process_purchase_receipt`
(models.py lines 282-293, the binding Python attaches to the class):
`book.quantity_on_hand += item.quantity`; then `cost_price` becomes
`item.unit_price` if it was `0`, else the weighted average
`(cost_price*(quantity_on_hand - item.quantity) + unit_price*item.quantity)
/ quantity_on_hand` computed with the already-incremented
`quantity_on_hand`.  Python raises `ZeroDivisionError` when that divisor is
`0`; here that is the `Except.error` case. -/
def receive_item (b : Book) (it : InvoiceItem) : Except String Book :=
  let quantity_on_hand := b.quantity_on_hand + it.quantity
  if b.cost_price = 0 then
    .ok { b with quantity_on_hand := quantity_on_hand,
                 cost_price := it.unit_price }
  else if quantity_on_hand = 0 then
    .error "division by zero"
  else
    let total_value := b.cost_price * ((quantity_on_hand - it.quantity : Int) : ℚ)
      + it.unit_price * (it.quantity : ℚ)
    .ok { b with quantity_on_hand := quantity_on_hand,
                 cost_price := total_value / (quantity_on_hand : ℚ) }

/-- The `for item in self.items.all()` loop of
`Invoice.process_purchase_receipt`: each book is saved as soon as it is
updated, so on an error the books saved before the failing item keep their
new values (the view catches the exception, hence those writes persist). -/
def receive_items_run : List InvoiceItem → List Book → List Book × Option String
  | [], books => (books, none)
  | it :: rest, books =>
    match find_book books it.book with
    | none => (books, some "book not found")
    | some b =>
      match receive_item b it with
      | .error e => (books, some e)
      | .ok b2 => receive_items_run rest (save_book books b2)

/-- Embeds `Invoice.process_purchase_receipt` (models.py lines 271-296): raises
`ValueError` unless the invoice is a purchase invoice with status
CONFIRMED; then runs the receipt loop over the items and finally sets the
status to PAID and saves.  The result is the invoice, the book table, and
the error raised if any. -/
def Invoice.process_purchase_receipt (inv : Invoice) (items : List InvoiceItem)
    (books : List Book) : Invoice × List Book × Option String :=
  if inv.invoice_type ≠ InvoiceType.PURCHASE then
    (inv, books, some "Can only process purchase receipts for purchase invoices.")
  else if inv.status ≠ InvoiceStatus.CONFIRMED then
    (inv, books, some "Only confirmed invoices can be processed.")
  else
    match receive_items_run items books with
    | (books2, some e) => (inv, books2, some e)
    | (books2, none) => ({ inv with status := InvoiceStatus.PAID }, books2, none)

/-- Embeds `PurchaseItemForm.clean` (forms.py lines 251-262, the later binding):
returns the list of errors added.  Python's truthiness test `if quantity
and quantity < 1` skips the check when `quantity` is `None` or `0`, and
`if unit_price and unit_price < 0` skips it when `unit_price` is `None` or
`0`; no check on `discount_percent` or `tax_percent` exists. -/
def PurchaseItemForm_clean (quantity : Option Int) (unit_price : Option ℚ) :
    List String :=
  (match quantity with
   | some q => if q ≠ 0 ∧ q < 1 then ["Quantity must be at least 1."] else []
   | none => []) ++
  (match unit_price with
   | some p => if p ≠ 0 ∧ p < 0 then ["Price cannot be negative."] else []
   | none => [])

/-- Embeds `purchase_edit` (views_purchase.py lines 137-197): a non-PURCHASE id is
a 404; a non-DRAFT purchase is rejected with an error message and nothing
changes; otherwise the posted items replace the existing ones (each saved,
recomputing its `line_total`) and the view sets both `subtotal` and
`total_amount` to the sum of the new line totals. -/
def purchase_edit (inv : Invoice) (items : List InvoiceItem)
    (posted : List InvoiceItem) :
    (Invoice × List InvoiceItem) × Option String :=
  if inv.invoice_type ≠ InvoiceType.PURCHASE then
    ((inv, items), some "not found")
  else if inv.status ≠ InvoiceStatus.DRAFT then
    ((inv, items), some "Cannot edit a confirmed or processed purchase invoice.")
  else
    let new_items := posted.map InvoiceItem.save
    let total := (new_items.map InvoiceItem.line_total).sum
    (({ inv with subtotal := total, total_amount := total }, new_items), none)

/-- Embeds `purchase_delete` (views_purchase.py lines 200-217): a non-PURCHASE id
is a 404; a non-DRAFT purchase is rejected with an error message and
nothing changes; otherwise the invoice and (by cascade) its items are
deleted. -/
def purchase_delete (inv : Invoice) (items : List InvoiceItem) :
    Option (Invoice × List InvoiceItem) × Option String :=
  if inv.invoice_type ≠ InvoiceType.PURCHASE then
    (some (inv, items), some "not found")
  else if inv.status ≠ InvoiceStatus.DRAFT then
    (some (inv, items), some "Cannot delete a confirmed or processed purchase invoice.")
  else
    (none, none)

/-- Embeds `purchase_receive` (views_purchase.py lines 222-245): a non-PURCHASE
id is a 404; a non-CONFIRMED purchase is rejected with an error message;
otherwise `process_purchase_receipt` runs (its exception, if any, is caught
and shown while the writes already issued stand).  The state is the
invoice, its line items (never written by this flow) and the book table. -/
def purchase_receive (inv : Invoice) (items : List InvoiceItem)
    (books : List Book) :
    (Invoice × List InvoiceItem × List Book) × Option String :=
  if inv.invoice_type ≠ InvoiceType.PURCHASE then
    ((inv, items, books), some "not found")
  else if inv.status ≠ InvoiceStatus.CONFIRMED then
    ((inv, items, books), some "Only confirmed purchase invoices can be received.")
  else
    (((inv.process_purchase_receipt items books).1, items,
        (inv.process_purchase_receipt items books).2.1),
      (inv.process_purchase_receipt items books).2.2)

section Lemmas

/-- A successful `receive_item` increments the quantity and leaves every
field other than `quantity_on_hand` and `cost_price` unchanged. -/
theorem receive_item_fields {b : Book} {it : InvoiceItem} {b' : Book}
    (h : receive_item b it = .ok b') :
    b'.id = b.id ∧ b'.quantity_on_hand = b.quantity_on_hand + it.quantity ∧
      b'.mrp = b.mrp ∧ b'.selling_price = b.selling_price ∧
      b'.reorder_level = b.reorder_level := by
  simp only [receive_item] at h
  split at h
  · cases h
    simp
  · split at h
    · cases h
    · cases h
      simp

/-- Lemma: `receive_item` succeeds whenever the book has nonnegative stock and the
item a positive quantity. -/
theorem receive_item_ok {b : Book} {it : InvoiceItem}
    (hb : 0 ≤ b.quantity_on_hand) (hq : 1 ≤ it.quantity) :
    ∃ b', receive_item b it = .ok b' := by
  simp only [receive_item]
  split
  · exact ⟨_, rfl⟩
  · rw [if_neg (by omega : ¬(b.quantity_on_hand + it.quantity = 0))]
    exact ⟨_, rfl⟩

theorem find_book_id {books : List Book} {bid : Nat} {b : Book}
    (h : find_book books bid = some b) : b.id = bid := by
  induction books with
  | nil => cases h
  | cons x xs ih =>
    simp only [find_book] at h
    split at h
    · cases h
      assumption
    · exact ih h

theorem find_book_mem {books : List Book} {bid : Nat} {b : Book}
    (h : find_book books bid = some b) : b ∈ books := by
  induction books with
  | nil => cases h
  | cons x xs ih =>
    simp only [find_book] at h
    split at h
    · cases h
      exact List.mem_cons_self _ _
    · exact List.mem_cons_of_mem _ (ih h)

theorem mem_save_book {books : List Book} {b x : Book}
    (h : x ∈ save_book books b) : x ∈ books ∨ x = b := by
  induction books with
  | nil => cases h
  | cons y ys ih =>
    simp only [save_book, List.mem_cons] at h
    rcases h with h | h
    · by_cases hy : y.id = b.id
      · rw [if_pos hy] at h
        exact Or.inr h
      · rw [if_neg hy] at h
        exact Or.inl (by rw [h]; exact List.mem_cons_self _ _)
    · rcases ih h with h' | h'
      · exact Or.inl (List.mem_cons_of_mem _ h')
      · exact Or.inr h'

theorem find_save_book_ne {books : List Book} {b : Book} {bid : Nat}
    (hne : b.id ≠ bid) :
    find_book (save_book books b) bid = find_book books bid := by
  induction books with
  | nil => rfl
  | cons x xs ih =>
    simp only [save_book, find_book]
    by_cases hx : x.id = b.id
    · rw [if_pos hx, if_neg hne,
        if_neg (show ¬x.id = bid from fun hc => hne (hx.symm.trans hc))]
      exact ih
    · rw [if_neg hx]
      by_cases hxb : x.id = bid
      · rw [if_pos hxb, if_pos hxb]
      · rw [if_neg hxb, if_neg hxb]
        exact ih

theorem find_save_book_eq {books : List Book} {b b0 : Book} {bid : Nat}
    (h : find_book books bid = some b0) (hid : b.id = bid) :
    find_book (save_book books b) bid = some b := by
  induction books with
  | nil => cases h
  | cons x xs ih =>
    simp only [find_book] at h
    simp only [save_book, find_book]
    by_cases hxb : x.id = bid
    · by_cases hx : x.id = b.id
      · rw [if_pos hx, if_pos hid]
      · exact absurd (hxb.trans hid.symm) hx
    · rw [if_neg hxb] at h
      by_cases hx : x.id = b.id
      · exact absurd (hx.trans hid) hxb
      · rw [if_neg hx, if_neg hxb]
        exact ih h

theorem find_save_book_isSome {books : List Book} {b : Book} {bid : Nat}
    (h : (find_book books bid).isSome) :
    (find_book (save_book books b) bid).isSome := by
  by_cases hid : b.id = bid
  · obtain ⟨b0, hb0⟩ := Option.isSome_iff_exists.mp h
    rw [find_save_book_eq hb0 hid]
    rfl
  · rw [find_save_book_ne hid]
    exact h

theorem receive_items_run_cons_none {it : InvoiceItem}
    {rest : List InvoiceItem} {books : List Book}
    (hf : find_book books it.book = none) :
    receive_items_run (it :: rest) books = (books, some "book not found") := by
  simp only [receive_items_run, hf]

theorem receive_items_run_cons_err {it : InvoiceItem}
    {rest : List InvoiceItem} {books : List Book} {b : Book} {e : String}
    (hf : find_book books it.book = some b)
    (hr : receive_item b it = .error e) :
    receive_items_run (it :: rest) books = (books, some e) := by
  simp only [receive_items_run, hf, hr]

theorem receive_items_run_cons_ok {it : InvoiceItem}
    {rest : List InvoiceItem} {books : List Book} {b b2 : Book}
    (hf : find_book books it.book = some b)
    (hr : receive_item b it = .ok b2) :
    receive_items_run (it :: rest) books =
      receive_items_run rest (save_book books b2) := by
  simp only [receive_items_run, hf, hr]

/-- Books whose id appears in none of the items are untouched by the
receipt loop. -/
theorem receive_items_run_untouched {items : List InvoiceItem}
    {books : List Book} {bid : Nat}
    (h : ∀ it ∈ items, it.book ≠ bid) :
    find_book (receive_items_run items books).1 bid = find_book books bid := by
  induction items generalizing books with
  | nil => rfl
  | cons it rest ih =>
    cases hf : find_book books it.book with
    | none => rw [receive_items_run_cons_none hf]
    | some b =>
      cases hr : receive_item b it with
      | error e => rw [receive_items_run_cons_err hf hr]
      | ok b2 =>
        have hb2 : b2.id = it.book := by
          rw [(receive_item_fields hr).1]
          exact find_book_id hf
        rw [receive_items_run_cons_ok hf hr,
          ih (fun x hx => h x (List.mem_cons_of_mem _ hx))]
        exact find_save_book_ne (show b2.id ≠ bid from by
          rw [hb2]; exact h it (List.mem_cons_self _ _))

/-- Under the data-model preconditions (every referenced book exists, all
stocks are nonnegative, all item quantities positive) the receipt loop
completes without error. -/
theorem receive_items_run_ok {items : List InvoiceItem} {books : List Book}
    (h1 : ∀ it ∈ items, (find_book books it.book).isSome)
    (h2 : ∀ b ∈ books, 0 ≤ b.quantity_on_hand)
    (h3 : ∀ it ∈ items, 1 ≤ it.quantity) :
    (receive_items_run items books).2 = none := by
  induction items generalizing books with
  | nil => rfl
  | cons it rest ih =>
    obtain ⟨b, hb⟩ := Option.isSome_iff_exists.mp
      (h1 it (List.mem_cons_self _ _))
    obtain ⟨b2, hb2⟩ := receive_item_ok
      (h2 b (find_book_mem hb)) (h3 it (List.mem_cons_self _ _))
    rw [receive_items_run_cons_ok hb hb2]
    refine ih ?_ ?_ ?_
    · intro x hx
      exact find_save_book_isSome (h1 x (List.mem_cons_of_mem _ hx))
    · intro x hx
      rcases mem_save_book hx with h' | h'
      · exact h2 x h'
      · rw [h', (receive_item_fields hb2).2.1]
        have := h2 b (find_book_mem hb)
        have := h3 it (List.mem_cons_self _ _)
        omega
    · intro x hx
      exact h3 x (List.mem_cons_of_mem _ hx)

/-- When the receipt loop completes without error and no book is listed
twice, every item's book row ends up as the `receive_item` image of its
original row. -/
theorem receive_items_run_none_books {items : List InvoiceItem}
    {books : List Book}
    (h4 : List.Pairwise (fun a c => a.book ≠ c.book) items)
    (hnone : (receive_items_run items books).2 = none) :
    ∀ it ∈ items, ∃ b b', find_book books it.book = some b ∧
      find_book (receive_items_run items books).1 it.book = some b' ∧
      receive_item b it = .ok b' := by
  induction items generalizing books with
  | nil => intro x hx; cases hx
  | cons it rest ih =>
    cases hf : find_book books it.book with
    | none =>
      rw [receive_items_run_cons_none hf] at hnone
      cases hnone
    | some b =>
      cases hr : receive_item b it with
      | error e =>
        rw [receive_items_run_cons_err hf hr] at hnone
        cases hnone
      | ok b2 =>
        have hb2 : b2.id = it.book := by
          rw [(receive_item_fields hr).1]
          exact find_book_id hf
        rw [receive_items_run_cons_ok hf hr] at hnone ⊢
        intro x hx
        rcases List.mem_cons.mp hx with hx' | hx'
        · subst hx'
          refine ⟨b, b2, hf, ?_, hr⟩
          have hrest : ∀ y ∈ rest, y.book ≠ x.book := fun y hy =>
            Ne.symm ((List.pairwise_cons.mp h4).1 y hy)
          rw [receive_items_run_untouched hrest]
          exact find_save_book_eq hf hb2
        · obtain ⟨b_, b'_, hfb, hfb', hrb⟩ :=
            ih (List.pairwise_cons.mp h4).2 hnone x hx'
          refine ⟨b_, b'_, ?_, hfb', hrb⟩
          rw [← hfb]
          exact (find_save_book_ne (show b2.id ≠ x.book from by
            rw [hb2]
            exact (List.pairwise_cons.mp h4).1 x hx')).symm

/-- Every row of the book table after the receipt loop agrees with some
original row on every field other than `quantity_on_hand` and
`cost_price`. -/
theorem receive_items_run_frame {items : List InvoiceItem}
    {books : List Book} :
    ∀ x ∈ (receive_items_run items books).1, ∃ b ∈ books, x.id = b.id ∧
      x.mrp = b.mrp ∧ x.selling_price = b.selling_price ∧
      x.reorder_level = b.reorder_level := by
  induction items generalizing books with
  | nil =>
    intro x hx
    exact ⟨x, hx, rfl, rfl, rfl, rfl⟩
  | cons it rest ih =>
    intro x hx
    cases hf : find_book books it.book with
    | none =>
      rw [receive_items_run_cons_none hf] at hx
      exact ⟨x, hx, rfl, rfl, rfl, rfl⟩
    | some b =>
      cases hr : receive_item b it with
      | error e =>
        rw [receive_items_run_cons_err hf hr] at hx
        exact ⟨x, hx, rfl, rfl, rfl, rfl⟩
      | ok b2 =>
        rw [receive_items_run_cons_ok hf hr] at hx
        obtain ⟨y, hy, hxy⟩ := ih x hx
        rcases mem_save_book hy with h' | h'
        · exact ⟨y, h', hxy⟩
        · subst h'
          obtain ⟨hid, _, hm, hs, hrl⟩ := receive_item_fields hr
          exact ⟨b, find_book_mem hf,
            hxy.1.trans hid, hxy.2.1.trans hm, hxy.2.2.1.trans hs,
            hxy.2.2.2.trans hrl⟩

/-- When the loop completes cleanly, `process_purchase_receipt` returns the
PAID invoice, the updated book table and no error. -/
theorem process_purchase_receipt_ok_shape {inv : Invoice}
    {items : List InvoiceItem} {books : List Book}
    (ht : inv.invoice_type = InvoiceType.PURCHASE)
    (hs : inv.status = InvoiceStatus.CONFIRMED)
    (hnone : (receive_items_run items books).2 = none) :
    inv.process_purchase_receipt items books =
      ({ inv with status := InvoiceStatus.PAID },
        (receive_items_run items books).1, none) := by
  simp only [Invoice.process_purchase_receipt]
  rw [if_neg (by simp [ht]), if_neg (by simp [hs])]
  split
  · rename_i books2 e heq
    rw [heq] at hnone
    simp at hnone
  · rename_i books2 heq
    rw [heq]

/-- When the loop fails, `process_purchase_receipt` returns the partially
updated book table, the unchanged invoice and the error. -/
theorem process_purchase_receipt_err_shape {inv : Invoice}
    {items : List InvoiceItem} {books : List Book} {e : String}
    (ht : inv.invoice_type = InvoiceType.PURCHASE)
    (hs : inv.status = InvoiceStatus.CONFIRMED)
    (hsome : (receive_items_run items books).2 = some e) :
    inv.process_purchase_receipt items books =
      (inv, (receive_items_run items books).1, some e) := by
  simp only [Invoice.process_purchase_receipt]
  rw [if_neg (by simp [ht]), if_neg (by simp [hs])]
  split
  · rename_i books2 e' heq
    rw [heq] at hsome ⊢
    simp only [Option.some.injEq] at hsome
    rw [hsome]
  · rename_i books2 heq
    rw [heq] at hsome
    simp at hsome

end Lemmas

/-- C2: after every recomputation of totals — whether triggered directly or
by the `InvoiceItem.save` cascade — `total_amount` equals
`subtotal - discount_amount + tax_amount + shipping_charges` with
`subtotal` the sum of the items' `line_total`, and `balance_due` equals
`total_amount - paid_amount`. -/
theorem update_totals_invariant (inv : Invoice) (items : List InvoiceItem)
    (it : InvoiceItem) (others : List InvoiceItem) :
    ((inv.update_totals items).total_amount =
        (inv.update_totals items).subtotal -
          (inv.update_totals items).discount_amount +
          (inv.update_totals items).tax_amount +
          (inv.update_totals items).shipping_charges ∧
      (inv.update_totals items).subtotal =
        (items.map InvoiceItem.line_total).sum ∧
      (inv.update_totals items).balance_due =
        (inv.update_totals items).total_amount -
          (inv.update_totals items).paid_amount) ∧
    (it.save_cascade inv others).2.total_amount =
      (it.save_cascade inv others).2.subtotal -
        (it.save_cascade inv others).2.discount_amount +
        (it.save_cascade inv others).2.tax_amount +
        (it.save_cascade inv others).2.shipping_charges :=
  ⟨⟨rfl, rfl, rfl⟩, rfl⟩

/-- C3 counterexample: on a book with `quantity_on_hand = 5` and
`cost_price = 0`, receiving 10 units at unit cost 100 yields
`cost_price = 100` (the code tests only `cost_price == 0`), while the
claim's conditional demands the weighted average
`(0*5 + 100*10)/15 = 200/3 ≠ 100` because the book's state is not
`(quantity_on_hand = 0, cost_price = 0)`. -/
theorem receive_item_claim_conditional_false :
    receive_item
        { id := 1, mrp := 0, selling_price := 0, cost_price := 0,
          quantity_on_hand := 5, reorder_level := 5 }
        { book := 1, quantity := 10, unit_price := 100,
          discount_percent := 0, tax_percent := 0, line_total := 0 } =
      Except.ok { id := 1, mrp := 0, selling_price := 0, cost_price := 100,
                  quantity_on_hand := 15, reorder_level := 5 } ∧
    ¬((5 : Int) = 0 ∧ (0 : ℚ) = 0) ∧
    (100 : ℚ) ≠ ((0 : ℚ) * 5 + 100 * 10) / ((5 : ℚ) + 10) := by
  refine ⟨by decide, by decide, by norm_num⟩

/-- C3 (amended): with `incoming_quantity ≥ 1` and a nonnegative stock,
receipt processing sets `new_quantity = quantity_on_hand +
incoming_quantity`, and sets `new_cost_price` to the incoming unit cost
whenever `cost_price = 0` (regardless of `quantity_on_hand`), otherwise to
`(cost_price*quantity_on_hand + incoming_unit_cost*incoming_quantity) /
new_quantity`. -/
theorem receive_item_weighted_average (b : Book) (it : InvoiceItem)
    (hb : 0 ≤ b.quantity_on_hand) (hq : 1 ≤ it.quantity) :
    receive_item b it = Except.ok { b with
      quantity_on_hand := b.quantity_on_hand + it.quantity,
      cost_price :=
        if b.cost_price = 0 then it.unit_price
        else (b.cost_price * (b.quantity_on_hand : ℚ) +
            it.unit_price * (it.quantity : ℚ)) /
          ((b.quantity_on_hand : ℚ) + (it.quantity : ℚ)) } := by
  simp only [receive_item]
  by_cases hc : b.cost_price = 0
  · rw [if_pos hc, if_pos hc]
  · have harith :
        b.cost_price * ((b.quantity_on_hand + it.quantity - it.quantity : Int) : ℚ)
            + it.unit_price * (it.quantity : ℚ) =
          b.cost_price * (b.quantity_on_hand : ℚ) +
            it.unit_price * (it.quantity : ℚ) := by
      push_cast
      ring
    have hden : ((b.quantity_on_hand + it.quantity : Int) : ℚ) =
        (b.quantity_on_hand : ℚ) + (it.quantity : ℚ) := by
      push_cast
      ring
    rw [if_neg hc, if_neg hc,
      if_neg (show ¬(b.quantity_on_hand + it.quantity = 0) by omega),
      harith, hden]

/-- C3 witness: the spec's second example — receiving 10 units at cost 200
into a book holding 10 units at cost 100 yields quantity 20 at cost 150. -/
theorem receive_item_weighted_average_witness :
    receive_item
        { id := 1, mrp := 0, selling_price := 0, cost_price := 100,
          quantity_on_hand := 10, reorder_level := 5 }
        { book := 1, quantity := 10, unit_price := 200,
          discount_percent := 0, tax_percent := 0, line_total := 0 } =
      Except.ok { id := 1, mrp := 0, selling_price := 0, cost_price := 150,
                  quantity_on_hand := 20, reorder_level := 5 } :=
  (receive_item_weighted_average _ _ (by decide) (by decide)).trans (by
    norm_num [Except.ok.injEq, Book.mk.injEq])

/-- C4: `process_purchase_receipt` raises for every invoice that is not a
purchase invoice or whose status is not CONFIRMED, leaving the state
untouched; on a CONFIRMED purchase invoice (with the data model's
well-formedness: every item's book exists, stocks are nonnegative, item
quantities are ≥ 1, no duplicate books) it succeeds, applies the inventory
update to each item's book, and sets the status to PAID. -/
theorem process_purchase_receipt_state_machine (inv : Invoice)
    (items : List InvoiceItem) (books : List Book)
    (h1 : ∀ it ∈ items, (find_book books it.book).isSome)
    (h2 : ∀ b ∈ books, 0 ≤ b.quantity_on_hand)
    (h3 : ∀ it ∈ items, 1 ≤ it.quantity)
    (h4 : List.Pairwise (fun a c => a.book ≠ c.book) items) :
    (inv.invoice_type ≠ InvoiceType.PURCHASE →
      inv.process_purchase_receipt items books =
        (inv, books,
          some "Can only process purchase receipts for purchase invoices.")) ∧
    (inv.invoice_type = InvoiceType.PURCHASE →
      inv.status ≠ InvoiceStatus.CONFIRMED →
      inv.process_purchase_receipt items books =
        (inv, books, some "Only confirmed invoices can be processed.")) ∧
    (inv.invoice_type = InvoiceType.PURCHASE →
      inv.status = InvoiceStatus.CONFIRMED →
      (inv.process_purchase_receipt items books).2.2 = none ∧
      (inv.process_purchase_receipt items books).1 =
        { inv with status := InvoiceStatus.PAID } ∧
      ∀ it ∈ items, ∃ b b', find_book books it.book = some b ∧
        find_book (inv.process_purchase_receipt items books).2.1 it.book =
          some b' ∧
        b'.quantity_on_hand = b.quantity_on_hand + it.quantity) := by
  refine ⟨?_, ?_, ?_⟩
  · intro ht
    simp only [Invoice.process_purchase_receipt, if_pos ht]
  · intro ht hs
    simp only [Invoice.process_purchase_receipt]
    rw [if_neg (by simp [ht]), if_pos hs]
  · intro ht hs
    have hnone := receive_items_run_ok h1 h2 h3
    have hproc := process_purchase_receipt_ok_shape ht hs hnone
    refine ⟨by rw [hproc], by rw [hproc], ?_⟩
    intro it hit
    obtain ⟨b, b', hfb, hfb', hrb⟩ :=
      receive_items_run_none_books h4 hnone it hit
    exact ⟨b, b', hfb, by rw [hproc]; exact hfb',
      (receive_item_fields hrb).2.1⟩

/-- C4 witness: a CONFIRMED purchase invoice with one item is processed
without error and ends PAID. -/
theorem process_purchase_receipt_state_machine_witness :
    (Invoice.process_purchase_receipt
        { invoice_number := "PO-000001", invoice_type := InvoiceType.PURCHASE,
          status := InvoiceStatus.CONFIRMED, party := 1, subtotal := 1000,
          discount_amount := 0, tax_amount := 0, shipping_charges := 0,
          total_amount := 1000, paid_amount := 0 }
        [{ book := 1, quantity := 10, unit_price := 100,
           discount_percent := 0, tax_percent := 0, line_total := 1000 }]
        [{ id := 1, mrp := 0, selling_price := 0, cost_price := 0,
           quantity_on_hand := 0, reorder_level := 5 }]).2.2 = none ∧
    (Invoice.process_purchase_receipt
        { invoice_number := "PO-000001", invoice_type := InvoiceType.PURCHASE,
          status := InvoiceStatus.CONFIRMED, party := 1, subtotal := 1000,
          discount_amount := 0, tax_amount := 0, shipping_charges := 0,
          total_amount := 1000, paid_amount := 0 }
        [{ book := 1, quantity := 10, unit_price := 100,
           discount_percent := 0, tax_percent := 0, line_total := 1000 }]
        [{ id := 1, mrp := 0, selling_price := 0, cost_price := 0,
           quantity_on_hand := 0, reorder_level := 5 }]).1.status =
      InvoiceStatus.PAID := by
  have h := process_purchase_receipt_state_machine
    { invoice_number := "PO-000001", invoice_type := InvoiceType.PURCHASE,
      status := InvoiceStatus.CONFIRMED, party := 1, subtotal := 1000,
      discount_amount := 0, tax_amount := 0, shipping_charges := 0,
      total_amount := 1000, paid_amount := 0 }
    [{ book := 1, quantity := 10, unit_price := 100,
       discount_percent := 0, tax_percent := 0, line_total := 1000 }]
    [{ id := 1, mrp := 0, selling_price := 0, cost_price := 0,
       quantity_on_hand := 0, reorder_level := 5 }]
    (by decide) (by decide) (by decide) (by decide)
  obtain ⟨ha, hb, -⟩ := h.2.2 rfl rfl
  exact ⟨ha, by rw [hb]⟩

/-- C5: the purchase line-item validation misses out-of-policy inputs the
spec requires it to reject: `clean` adds no error for `quantity = 0`
(Python truthiness short-circuit), and nothing checks the percent ranges,
so `save` computes `line_total` from the out-of-range values instead of a
validation failure being reported. -/
theorem purchase_item_validation_gap :
    PurchaseItemForm_clean (some 0) (some 100) = [] ∧
    ({ book := 1, quantity := 0, unit_price := 100, discount_percent := 0,
       tax_percent := 0, line_total := 7 } : InvoiceItem).save.line_total
      = 0 ∧
    ({ book := 1, quantity := 1, unit_price := 100, discount_percent := 150,
       tax_percent := 0, line_total := 0 } : InvoiceItem).save.line_total
      = -50 := by
  refine ⟨rfl, by norm_num [InvoiceItem.save], by norm_num [InvoiceItem.save]⟩

/-- C6 counterexample: on a CONFIRMED purchase invoice with two items,
where the second item's book makes the incremented quantity zero (stock
`-2`, incoming `2`, nonzero cost), processing fails mid-loop — yet the
first item's book has already been updated and saved (its row changed from
cost 0/qty 0 to cost 10/qty 2), contradicting "no book's quantity_on_hand
or cost_price is mutated" on a failing batch. -/
theorem process_purchase_receipt_not_atomic :
    (Invoice.process_purchase_receipt
        { invoice_number := "PO-000002", invoice_type := InvoiceType.PURCHASE,
          status := InvoiceStatus.CONFIRMED, party := 1, subtotal := 0,
          discount_amount := 0, tax_amount := 0, shipping_charges := 0,
          total_amount := 0, paid_amount := 0 }
        [{ book := 1, quantity := 2, unit_price := 10, discount_percent := 0,
           tax_percent := 0, line_total := 0 },
         { book := 2, quantity := 2, unit_price := 10, discount_percent := 0,
           tax_percent := 0, line_total := 0 }]
        [{ id := 1, mrp := 0, selling_price := 0, cost_price := 0,
           quantity_on_hand := 0, reorder_level := 5 },
         { id := 2, mrp := 0, selling_price := 0, cost_price := 50,
           quantity_on_hand := -2, reorder_level := 5 }]).2.2.isSome
      = true ∧
    (Invoice.process_purchase_receipt
        { invoice_number := "PO-000002", invoice_type := InvoiceType.PURCHASE,
          status := InvoiceStatus.CONFIRMED, party := 1, subtotal := 0,
          discount_amount := 0, tax_amount := 0, shipping_charges := 0,
          total_amount := 0, paid_amount := 0 }
        [{ book := 1, quantity := 2, unit_price := 10, discount_percent := 0,
           tax_percent := 0, line_total := 0 },
         { book := 2, quantity := 2, unit_price := 10, discount_percent := 0,
           tax_percent := 0, line_total := 0 }]
        [{ id := 1, mrp := 0, selling_price := 0, cost_price := 0,
           quantity_on_hand := 0, reorder_level := 5 },
         { id := 2, mrp := 0, selling_price := 0, cost_price := 50,
           quantity_on_hand := -2, reorder_level := 5 }]).1.status
      = InvoiceStatus.CONFIRMED ∧
    find_book
        (Invoice.process_purchase_receipt
          { invoice_number := "PO-000002", invoice_type := InvoiceType.PURCHASE,
            status := InvoiceStatus.CONFIRMED, party := 1, subtotal := 0,
            discount_amount := 0, tax_amount := 0, shipping_charges := 0,
            total_amount := 0, paid_amount := 0 }
          [{ book := 1, quantity := 2, unit_price := 10, discount_percent := 0,
             tax_percent := 0, line_total := 0 },
           { book := 2, quantity := 2, unit_price := 10, discount_percent := 0,
             tax_percent := 0, line_total := 0 }]
          [{ id := 1, mrp := 0, selling_price := 0, cost_price := 0,
             quantity_on_hand := 0, reorder_level := 5 },
           { id := 2, mrp := 0, selling_price := 0, cost_price := 50,
             quantity_on_hand := -2, reorder_level := 5 }]).2.1 1
      = some { id := 1, mrp := 0, selling_price := 0, cost_price := 10,
               quantity_on_hand := 2, reorder_level := 5 } := by
  refine ⟨by decide, by decide, by decide⟩

/-- C6 (amended): receipt processing applies book updates item-by-item
with no prior validation pass; the invoice status transitions only when
every item succeeds (so a mid-loop failure leaves the status unchanged but
may leave earlier books mutated), and when no item fails, all book updates
and the PAID transition are applied together. -/
theorem process_purchase_receipt_batch (inv : Invoice)
    (items : List InvoiceItem) (books : List Book)
    (ht : inv.invoice_type = InvoiceType.PURCHASE)
    (hs : inv.status = InvoiceStatus.CONFIRMED)
    (h4 : List.Pairwise (fun a c => a.book ≠ c.book) items) :
    ((inv.process_purchase_receipt items books).2.2.isSome →
      (inv.process_purchase_receipt items books).1 = inv) ∧
    ((inv.process_purchase_receipt items books).2.2 = none →
      (inv.process_purchase_receipt items books).1 =
        { inv with status := InvoiceStatus.PAID } ∧
      ∀ it ∈ items, ∃ b b', find_book books it.book = some b ∧
        find_book (inv.process_purchase_receipt items books).2.1 it.book =
          some b' ∧
        receive_item b it = Except.ok b') := by
  cases hrun : (receive_items_run items books).2 with
  | some e =>
    have hproc := process_purchase_receipt_err_shape ht hs hrun
    constructor
    · intro _
      rw [hproc]
    · intro hc
      rw [hproc] at hc
      cases hc
  | none =>
    have hproc := process_purchase_receipt_ok_shape ht hs hrun
    constructor
    · intro hc
      rw [hproc] at hc
      cases hc
    · intro _
      refine ⟨by rw [hproc], ?_⟩
      intro it hit
      obtain ⟨b, b', hfb, hfb', hrb⟩ :=
        receive_items_run_none_books h4 hrun it hit
      exact ⟨b, b', hfb, by rw [hproc]; exact hfb', hrb⟩

/-- C6 witness: a clean two-item batch on a CONFIRMED purchase invoice
commits the status transition. -/
theorem process_purchase_receipt_batch_witness :
    (Invoice.process_purchase_receipt
        { invoice_number := "PO-000003", invoice_type := InvoiceType.PURCHASE,
          status := InvoiceStatus.CONFIRMED, party := 2, subtotal := 0,
          discount_amount := 0, tax_amount := 0, shipping_charges := 0,
          total_amount := 0, paid_amount := 0 }
        [{ book := 1, quantity := 3, unit_price := 20, discount_percent := 0,
           tax_percent := 0, line_total := 60 }]
        [{ id := 1, mrp := 0, selling_price := 0, cost_price := 0,
           quantity_on_hand := 4, reorder_level := 5 }]).1 =
      { invoice_number := "PO-000003", invoice_type := InvoiceType.PURCHASE,
        status := InvoiceStatus.PAID, party := 2, subtotal := 0,
        discount_amount := 0, tax_amount := 0, shipping_charges := 0,
        total_amount := 0, paid_amount := 0 } := by
  have h := process_purchase_receipt_batch
    { invoice_number := "PO-000003", invoice_type := InvoiceType.PURCHASE,
      status := InvoiceStatus.CONFIRMED, party := 2, subtotal := 0,
      discount_amount := 0, tax_amount := 0, shipping_charges := 0,
      total_amount := 0, paid_amount := 0 }
    [{ book := 1, quantity := 3, unit_price := 20, discount_percent := 0,
       tax_percent := 0, line_total := 60 }]
    [{ id := 1, mrp := 0, selling_price := 0, cost_price := 0,
       quantity_on_hand := 4, reorder_level := 5 }]
    rfl rfl (by decide)
  exact (h.2 (by decide)).1

/-- C7: on a purchase invoice whose status is not DRAFT (e.g. CONFIRMED),
both the edit view and the delete view reject the mutation with an error
and return the invoice — totals and all — and its items unchanged. -/
theorem locked_invoice_rejections (inv : Invoice)
    (items posted : List InvoiceItem)
    (ht : inv.invoice_type = InvoiceType.PURCHASE)
    (hs : inv.status ≠ InvoiceStatus.DRAFT) :
    purchase_edit inv items posted =
      ((inv, items),
        some "Cannot edit a confirmed or processed purchase invoice.") ∧
    purchase_delete inv items =
      (some (inv, items),
        some "Cannot delete a confirmed or processed purchase invoice.") := by
  constructor
  · simp only [purchase_edit]
    rw [if_neg (by simp [ht]), if_pos hs]
  · simp only [purchase_delete]
    rw [if_neg (by simp [ht]), if_pos hs]

/-- C7 witness: a CONFIRMED purchase invoice with one item rejects both
edit and delete, unchanged. -/
theorem locked_invoice_rejections_witness :
    purchase_edit
        { invoice_number := "PO-000004", invoice_type := InvoiceType.PURCHASE,
          status := InvoiceStatus.CONFIRMED, party := 1, subtotal := 50,
          discount_amount := 0, tax_amount := 0, shipping_charges := 0,
          total_amount := 50, paid_amount := 0 }
        [{ book := 1, quantity := 1, unit_price := 50, discount_percent := 0,
           tax_percent := 0, line_total := 50 }]
        [] =
      (({ invoice_number := "PO-000004", invoice_type := InvoiceType.PURCHASE,
          status := InvoiceStatus.CONFIRMED, party := 1, subtotal := 50,
          discount_amount := 0, tax_amount := 0, shipping_charges := 0,
          total_amount := 50, paid_amount := 0 },
        [{ book := 1, quantity := 1, unit_price := 50, discount_percent := 0,
           tax_percent := 0, line_total := 50 }]),
        some "Cannot edit a confirmed or processed purchase invoice.") ∧
    purchase_delete
        { invoice_number := "PO-000004", invoice_type := InvoiceType.PURCHASE,
          status := InvoiceStatus.CONFIRMED, party := 1, subtotal := 50,
          discount_amount := 0, tax_amount := 0, shipping_charges := 0,
          total_amount := 50, paid_amount := 0 }
        [{ book := 1, quantity := 1, unit_price := 50, discount_percent := 0,
           tax_percent := 0, line_total := 50 }] =
      (some ({ invoice_number := "PO-000004",
               invoice_type := InvoiceType.PURCHASE,
               status := InvoiceStatus.CONFIRMED, party := 1, subtotal := 50,
               discount_amount := 0, tax_amount := 0, shipping_charges := 0,
               total_amount := 50, paid_amount := 0 },
             [{ book := 1, quantity := 1, unit_price := 50,
                discount_percent := 0, tax_percent := 0, line_total := 50 }]),
        some "Cannot delete a confirmed or processed purchase invoice.") :=
  locked_invoice_rejections _ _ [] rfl (by decide)

/-- C8: receipt processing never decreases a book's `quantity_on_hand`:
whatever the book's state, a successful receipt of an item with positive
quantity leaves the stock at least as large as before. -/
theorem receive_never_decreases_stock (b : Book) (it : InvoiceItem)
    (b' : Book) (hq : 1 ≤ it.quantity)
    (h : receive_item b it = Except.ok b') :
    b.quantity_on_hand ≤ b'.quantity_on_hand := by
  have hfields := (receive_item_fields h).2.1
  omega

/-- C8 witness: receiving 10 units into an empty book raises the stock
from 0 to 10. -/
theorem receive_never_decreases_stock_witness :
    ({ id := 1, mrp := 0, selling_price := 0, cost_price := 0,
       quantity_on_hand := 0, reorder_level := 5 } : Book).quantity_on_hand ≤
      ({ id := 1, mrp := 0, selling_price := 0, cost_price := 100,
         quantity_on_hand := 10, reorder_level := 5 } : Book).quantity_on_hand :=
  receive_never_decreases_stock _
    { book := 1, quantity := 10, unit_price := 100, discount_percent := 0,
      tax_percent := 0, line_total := 0 }
    _ (by decide) (by decide)

/-- C9: under the preconditions (nonnegative stock, positive incoming
quantity) the weighted-average divisor `quantity_on_hand +
incoming_quantity` is nonzero and receipt processing never takes the
division-by-zero branch. -/
theorem receive_division_safe (b : Book) (it : InvoiceItem)
    (hb : 0 ≤ b.quantity_on_hand) (hq : 1 ≤ it.quantity) :
    b.quantity_on_hand + it.quantity ≠ 0 ∧
      (receive_item b it).isOk = true := by
  refine ⟨by omega, ?_⟩
  obtain ⟨b', hb'⟩ := receive_item_ok hb hq
  rw [hb']
  rfl

/-- C9 witness: a book holding 7 units receiving 3 has nonzero divisor and
a successful receipt. -/
theorem receive_division_safe_witness :
    ({ id := 1, mrp := 0, selling_price := 0, cost_price := 0,
       quantity_on_hand := 7, reorder_level := 5 } : Book).quantity_on_hand +
        ({ book := 1, quantity := 3, unit_price := 40, discount_percent := 0,
           tax_percent := 0, line_total := 0 } : InvoiceItem).quantity ≠ 0 ∧
      (receive_item
        { id := 1, mrp := 0, selling_price := 0, cost_price := 0,
          quantity_on_hand := 7, reorder_level := 5 }
        { book := 1, quantity := 3, unit_price := 40, discount_percent := 0,
          tax_percent := 0, line_total := 0 }).isOk = true :=
  receive_division_safe _ _ (by decide) (by decide)

/-- C10: a successful `purchase_receive` changes only the invoice's status
(to PAID; the record is otherwise the input invoice), leaves the line
items untouched, and every book row after processing agrees with an
original row on every field other than `quantity_on_hand` and
`cost_price`. -/
theorem purchase_receive_frame (inv : Invoice) (items : List InvoiceItem)
    (books : List Book)
    (ht : inv.invoice_type = InvoiceType.PURCHASE)
    (hs : inv.status = InvoiceStatus.CONFIRMED)
    (hok : (purchase_receive inv items books).2 = none) :
    (purchase_receive inv items books).1.1 =
      { inv with status := InvoiceStatus.PAID } ∧
    (purchase_receive inv items books).1.2.1 = items ∧
    ∀ x ∈ (purchase_receive inv items books).1.2.2, ∃ b ∈ books,
      x.id = b.id ∧ x.mrp = b.mrp ∧ x.selling_price = b.selling_price ∧
      x.reorder_level = b.reorder_level := by
  simp only [purchase_receive] at hok ⊢
  rw [if_neg (by simp [ht]), if_neg (by simp [hs])] at hok ⊢
  cases hrun : (receive_items_run items books).2 with
  | some e =>
    rw [process_purchase_receipt_err_shape ht hs hrun] at hok
    cases hok
  | none =>
    have hproc := process_purchase_receipt_ok_shape ht hs hrun
    rw [hproc]
    refine ⟨rfl, rfl, ?_⟩
    intro x hx
    exact receive_items_run_frame x hx

/-- C10 witness: a one-item receipt leaves the invoice identical except for
the PAID status, the items untouched, and the book's identity fields
unchanged. -/
theorem purchase_receive_frame_witness :
    (purchase_receive
        { invoice_number := "PO-000005", invoice_type := InvoiceType.PURCHASE,
          status := InvoiceStatus.CONFIRMED, party := 3, subtotal := 200,
          discount_amount := 1, tax_amount := 2, shipping_charges := 3,
          total_amount := 204, paid_amount := 0 }
        [{ book := 1, quantity := 2, unit_price := 100, discount_percent := 0,
           tax_percent := 0, line_total := 200 }]
        [{ id := 1, mrp := 9, selling_price := 8, cost_price := 0,
           quantity_on_hand := 0, reorder_level := 5 }]).1.1 =
      { invoice_number := "PO-000005", invoice_type := InvoiceType.PURCHASE,
        status := InvoiceStatus.PAID, party := 3, subtotal := 200,
        discount_amount := 1, tax_amount := 2, shipping_charges := 3,
        total_amount := 204, paid_amount := 0 } ∧
    (purchase_receive
        { invoice_number := "PO-000005", invoice_type := InvoiceType.PURCHASE,
          status := InvoiceStatus.CONFIRMED, party := 3, subtotal := 200,
          discount_amount := 1, tax_amount := 2, shipping_charges := 3,
          total_amount := 204, paid_amount := 0 }
        [{ book := 1, quantity := 2, unit_price := 100, discount_percent := 0,
           tax_percent := 0, line_total := 200 }]
        [{ id := 1, mrp := 9, selling_price := 8, cost_price := 0,
           quantity_on_hand := 0, reorder_level := 5 }]).1.2.1 =
      [{ book := 1, quantity := 2, unit_price := 100, discount_percent := 0,
         tax_percent := 0, line_total := 200 }] := by
  have h := purchase_receive_frame
    { invoice_number := "PO-000005", invoice_type := InvoiceType.PURCHASE,
      status := InvoiceStatus.CONFIRMED, party := 3, subtotal := 200,
      discount_amount := 1, tax_amount := 2, shipping_charges := 3,
      total_amount := 204, paid_amount := 0 }
    [{ book := 1, quantity := 2, unit_price := 100, discount_percent := 0,
       tax_percent := 0, line_total := 200 }]
    [{ id := 1, mrp := 9, selling_price := 8, cost_price := 0,
       quantity_on_hand := 0, reorder_level := 5 }]
    rfl rfl (by decide)
  exact ⟨h.1, h.2.1⟩

end BookBilling
